import Mathlib

/-!
Verification of the request/response reliability layer of the Copilot MCP
Bridge extension: a shallow embedding of `src/mcpService.ts` (the Transport
Client, class `McpService`) and of the chat-participant orchestrator
(class `CopilotChatParticipant`), with theorems settling the specified
properties of header construction, error classification, retry/backoff,
pass-through, and fallback rendering.
-/

namespace McpBridge

/-- `enum McpErrorType` from `types.ts` (part_001 lines 625–633): the seven
error kinds, in declaration order. -/
inductive McpErrorType where
  | CONNECTION_ERROR
  | AUTHENTICATION_ERROR
  | TIMEOUT_ERROR
  | INVALID_RESPONSE
  | RATE_LIMITED
  | SERVER_ERROR
  | CONFIGURATION_ERROR
deriving DecidableEq, Repr

/-- `class McpError` from `types.ts` (part_001 lines 638–647): a classified
error carrying its `McpErrorType`, a human-readable message, and optional
details (the one call site passing details, `handleAxiosError`, attaches
`{ status, code }`, so the details record is specialised to that shape). -/
structure McpError where
  type : McpErrorType
  message : String
  details : Option (Option Nat × Option String) := none
deriving DecidableEq, Repr

/-- A raw JavaScript `Error` value: `name` (e.g. `"AbortError"`,
`"SyntaxError"`) and `message`. -/
structure JsError where
  name : String
  message : String
deriving DecidableEq, Repr

/-- A value thrown by the TypeScript code: either a raw (unclassified)
JavaScript error or a classified `McpError`. -/
inductive Thrown where
  | raw (e : JsError)
  | mcp (e : McpError)
deriving DecidableEq, Repr

/-- Whether a thrown value has been classified into the `McpError` taxonomy. -/
def Thrown.isClassified : Thrown → Bool
  | .raw _ => false
  | .mcp _ => true

/-- `authentication.type` from `configManager.ts`:
`'none' | 'bearer' | 'api-key' | 'basic'`. -/
inductive AuthType where
  | none
  | bearer
  | apiKey
  | basic
deriving DecidableEq, Repr

/-- `AuthenticationConfig` from `configManager.ts` (`type`, `token`,
`headerName`). -/
structure AuthenticationConfig where
  type : AuthType
  token : String
  headerName : String
deriving DecidableEq, Repr

/-- `McpServerConfig` from `configManager.ts`: endpoint, per-attempt timeout
in ms, retry count (validated by `validateConfig` to lie in `[0, 5]`,
hence a natural number). -/
structure McpServerConfig where
  endpoint : String
  timeout : Nat
  retries : Nat
deriving DecidableEq, Repr

/-- `httpClient.library` from `configManager.ts`: `'fetch' | 'axios'`. -/
inductive HttpLibrary where
  | fetch
  | axios
deriving DecidableEq, Repr

/-- `HttpClientConfig` from `configManager.ts`. -/
structure HttpClientConfig where
  library : HttpLibrary
  userAgent : String
deriving DecidableEq, Repr

/-- `FeatureConfig` from `configManager.ts`. -/
structure FeatureConfig where
  enabled : Bool
  includeWorkspaceContext : Bool
  includeActiveFile : Bool
deriving DecidableEq, Repr

/-- `LoggingConfig` from `configManager.ts` (level is one of
`'debug' | 'info' | 'warn' | 'error'`). -/
structure LoggingConfig where
  level : String
  enableTelemetry : Bool
deriving DecidableEq, Repr

/-- `ExtensionConfig` from `configManager.ts`. -/
structure ExtensionConfig where
  mcpServer : McpServerConfig
  authentication : AuthenticationConfig
  httpClient : HttpClientConfig
  features : FeatureConfig
  logging : LoggingConfig
deriving DecidableEq, Repr

/-! ### Wire data model (`McpRequest` / `McpResponse` from `types.ts` usage) -/

/-- `context.activeFile` of an outgoing request. -/
structure ActiveFile where
  path : String
  language : String
  content : String
deriving DecidableEq, Repr

/-- `context.selection` of an outgoing request (positions abstracted to
line/character pairs). -/
structure SelectionInfo where
  startPos : Nat × Nat
  endPos : Nat × Nat
  text : String
deriving DecidableEq, Repr

/-- The `context` bundle of an outgoing request; every field optional. -/
structure McpContext where
  workspaceRoot : Option String := Option.none
  openFiles : Option (List String) := Option.none
  activeFile : Option ActiveFile := Option.none
  selection : Option SelectionInfo := Option.none
deriving DecidableEq, Repr

/-- The `metadata` field of an outgoing request. -/
structure McpMetadata where
  extensionVersion : String
  vscodeVersion : String
  copilotVersion : Option String := Option.none
deriving DecidableEq, Repr

/-- `McpRequest`: the outgoing payload (prompt, session identity, epoch-ms
timestamp, harvested context, static metadata). -/
structure McpRequest where
  prompt : String
  sessionId : String
  userId : String
  timestamp : Nat
  context : McpContext
  metadata : McpMetadata
deriving DecidableEq, Repr

/-- The `error` object of a failure response body. -/
structure McpErrorBody where
  code : String
  message : String
deriving DecidableEq, Repr

/-- The `data` object of a success response body. The server `metadata`
object is abstracted as its rendered JSON string. -/
structure McpData where
  enhancedPrompt : Option String := Option.none
  additionalContext : Option String := Option.none
  suggestions : Option (List String) := Option.none
  metadata : Option String := Option.none
deriving DecidableEq, Repr

/-- `McpResponse`: the parsed response body `{ success, data?, error? }`. -/
structure McpResponse where
  success : Bool
  data : Option McpData := Option.none
  error : Option McpErrorBody := Option.none
deriving DecidableEq, Repr

/-! ### Base64 (`Buffer.from(token).toString('base64')` in `buildHeaders`) -/

/-- The base64 alphabet. -/
def base64Alphabet : List Char :=
  "ABCDEFGHIJKLMNOPQRSTUVWXYZabcdefghijklmnopqrstuvwxyz0123456789+/".data

/-- Character at a 6-bit index of the base64 alphabet. -/
def base64Digit (i : Nat) : Char := base64Alphabet.getD i '?'

/-- Standard base64 of a byte sequence, with `=` padding (the encoding
Node's `Buffer.toString('base64')` produces). -/
def base64EncodeBytes : List Nat → List Char
  | [] => []
  | [b1] =>
      [base64Digit (b1 / 4), base64Digit (b1 % 4 * 16), '=', '=']
  | [b1, b2] =>
      [base64Digit (b1 / 4), base64Digit (b1 % 4 * 16 + b2 / 16),
       base64Digit (b2 % 16 * 4), '=']
  | b1 :: b2 :: b3 :: rest =>
      base64Digit (b1 / 4) :: base64Digit (b1 % 4 * 16 + b2 / 16) ::
      base64Digit (b2 % 16 * 4 + b3 / 64) :: base64Digit (b3 % 64) ::
      base64EncodeBytes rest

/-- UTF-8 bytes of one character (`Buffer.from` encodes the token string
as UTF-8). -/
def charUtf8Bytes (c : Char) : List Nat :=
  let n := c.toNat
  if n < 128 then [n]
  else if n < 2048 then [192 + n / 64, 128 + n % 64]
  else if n < 65536 then [224 + n / 4096, 128 + n / 64 % 64, 128 + n % 64]
  else [240 + n / 262144, 128 + n / 4096 % 64, 128 + n / 64 % 64, 128 + n % 64]

/-- UTF-8 bytes of a string. -/
def stringUtf8Bytes (s : String) : List Nat :=
  s.data.flatMap charUtf8Bytes

/-- `Buffer.from(s).toString('base64')`. -/
def base64Encode (s : String) : String :=
  ⟨base64EncodeBytes (stringUtf8Bytes s)⟩

/-! ### `McpService.buildHeaders` (`mcpService.ts` lines 169–193) -/

/-- JavaScript object property assignment `m[k] = v` on a string record
kept as an insertion-ordered association list: overwrite in place if the
key exists, else append. -/
def recordSet (m : List (String × String)) (k v : String) :
    List (String × String) :=
  if m.any (fun p => p.1 = k) then
    m.map (fun p => if p.1 = k then (k, v) else p)
  else m ++ [(k, v)]

/-- Property lookup `m[k]` on a string record. -/
def recordGet (m : List (String × String)) (k : String) : Option String :=
  (m.find? (fun p => p.1 = k)).map (fun p => p.2)

/-- The four fixed headers `buildHeaders` always installs
(`Content-Type`, `User-Agent`, `X-VS-Code-Version`, `X-Extension-Version`). -/
def fixedHeaders (userAgent vscodeVersion extensionVersion : String) :
    List (String × String) :=
  [("Content-Type", "application/json"),
   ("User-Agent", userAgent),
   ("X-VS-Code-Version", vscodeVersion),
   ("X-Extension-Version", extensionVersion)]

/-- `McpService.buildHeaders`: fixed headers plus an authentication header
selected by `authentication.type`, added only when the type is not `none`
AND the token is truthy (non-empty). `vscode.version` and the extension
version are parameters of the model. -/
def buildHeaders (cfg : ExtensionConfig)
    (vscodeVersion extensionVersion : String) : List (String × String) :=
  let headers :=
    fixedHeaders cfg.httpClient.userAgent vscodeVersion extensionVersion
  if cfg.authentication.type ≠ AuthType.none ∧ cfg.authentication.token ≠ ""
  then
    match cfg.authentication.type with
    | .bearer =>
        recordSet headers cfg.authentication.headerName
          ("Bearer " ++ cfg.authentication.token)
    | .apiKey =>
        recordSet headers cfg.authentication.headerName
          cfg.authentication.token
    | .basic =>
        recordSet headers cfg.authentication.headerName
          ("Basic " ++ base64Encode cfg.authentication.token)
    | .none => headers
  else headers

/-! ### Error classification (`mcpService.ts` lines 195–236) -/

/-- `String.prototype.includes`: substring containment test. -/
def strIncludes (hay needle : String) : Bool :=
  (List.range (hay.length + 1)).any
    (fun i => needle.isPrefixOf ((hay.toSubstring.drop i).toString))

/-- The model of an `AxiosError`: optional `error.code`, optional
`error.response?.status`, and `error.message` (body/text dependent). -/
structure AxiosError where
  code : Option String
  status : Option Nat
  message : String
deriving DecidableEq, Repr

/-- `McpService.handleAxiosError` (lines 198–220): classify an axios error
by `code` then by HTTP status. -/
def handleAxiosError (e : AxiosError) : McpError :=
  if e.code = some "ECONNREFUSED" ∨ e.code = some "ENOTFOUND" then
    { type := .CONNECTION_ERROR, message := "Unable to connect to MCP server" }
  else if e.code = some "ECONNABORTED" then
    { type := .TIMEOUT_ERROR, message := "Request timed out" }
  else if e.status = some 401 ∨ e.status = some 403 then
    { type := .AUTHENTICATION_ERROR, message := "Authentication failed" }
  else if e.status = some 429 then
    { type := .RATE_LIMITED, message := "Rate limit exceeded" }
  else
    { type := .SERVER_ERROR, message := e.message,
      details := some (e.status, e.code) }

/-- `McpService.handleError` (lines 225–236): pass
through an already-classified `McpError`; otherwise classify by message
pattern (`includes('fetch')` → `CONNECTION_ERROR`) falling back to
`SERVER_ERROR`. -/
def handleError : Thrown → McpError
  | .mcp e => e
  | .raw e =>
      if strIncludes e.message "fetch" then
        { type := .CONNECTION_ERROR, message := "Network request failed" }
      else
        { type := .SERVER_ERROR, message := e.message }

/-! ### The two transports (`makeAxiosRequest`, `makeFetchRequest`) -/

/-- What one `axios(...)` call does: resolve with a parsed 2xx body
(`validateStatus` accepts exactly `200 ≤ status < 300`), reject with an
`AxiosError` (`axios.isAxiosError` true), or reject with a non-axios
thrown value. -/
inductive AxiosOutcome where
  | resolved (body : McpResponse)
  | axiosErr (e : AxiosError)
  | thrown (t : Thrown)
deriving DecidableEq, Repr

/-- `McpService.makeAxiosRequest` (lines 106–124): return the 2xx body;
convert an axios error through `handleAxiosError`; rethrow anything else. -/
def makeAxiosRequest : AxiosOutcome → Except Thrown McpResponse
  | .resolved body => .ok body
  | .axiosErr e => .error (.mcp (handleAxiosError e))
  | .thrown t => .error t

/-- What one `fetch(...)` call does: resolve with an HTTP response whose
body either parses as an `McpResponse` or makes `response.json()` throw,
or reject with a raw error (network failure, or an `AbortError` when the
request's `AbortController` fired — whether from the timeout timer or
from `cancelRequests`). -/
inductive FetchOutcome where
  | response (status : Nat) (statusText : String)
      (body : Except JsError McpResponse)
  | thrown (e : JsError)
deriving Repr

/-- `response.ok`: status in the range 200–299. -/
def httpOk (status : Nat) : Bool := 200 ≤ status ∧ status < 300

/-- `McpService.makeFetchRequest` (lines 129–164): non-ok status becomes
`SERVER_ERROR "HTTP {status}: {statusText}"`; a thrown error named
`AbortError` becomes `TIMEOUT_ERROR "Request timed out"`; any other thrown
error (network failure, body-parse `SyntaxError`) is rethrown raw. -/
def makeFetchRequest (o : FetchOutcome) : Except Thrown McpResponse :=
  match o with
  | .response status statusText body =>
      if httpOk status then
        match body with
        | .ok data => .ok data
        | .error e =>
            if e.name = "AbortError" then
              .error (.mcp { type := .TIMEOUT_ERROR, message := "Request timed out" })
            else .error (.raw e)
      else
        .error (.mcp { type := .SERVER_ERROR,
                       message := "HTTP " ++ toString status ++ ": " ++ statusText })
  | .thrown e =>
      if e.name = "AbortError" then
        .error (.mcp { type := .TIMEOUT_ERROR, message := "Request timed out" })
      else .error (.raw e)

/-- Why the fetch `AbortController` fired: the per-attempt timeout timer
elapsed, or an external cancellation (`McpService.cancelRequests`, invoked
e.g. from `dispose`). -/
inductive AbortCause where
  | timeoutFired
  | externalCancel
deriving DecidableEq, Repr

/-- The `AbortError` the fetch call rejects with when its controller is
aborted. Both abort paths in the source (`setTimeout` timer at line 132 and
`cancelRequests` at line 287) call `abort()` on the same controller, so the
rejected error is the same value whichever the cause. -/
def abortError : JsError :=
  { name := "AbortError", message := "This operation was aborted" }

/-- Result of `makeFetchRequest` when the in-flight fetch is aborted, as a
function of the cause of the abort: the source classifies on the delivered
error alone, which is `abortError` for either cause. -/
def fetchResultOnAbort (_cause : AbortCause) : Except Thrown McpResponse :=
  makeFetchRequest (.thrown abortError)

/-! ### Retry loop (`McpService.sendMcpRequest`, lines 30–81) -/

/-- Backoff delay computed in the catch block (line 66) after `attempt` has
been incremented to the number of failures so far:
`Math.min(1000 * Math.pow(2, attempt - 1), 10000)`. -/
def backoffDelay (attempt : Nat) : Nat :=
  min (1000 * 2 ^ (attempt - 1)) 10000

/-- Observable trace of one `sendMcpRequest` call: its result (`.ok` for a
returned response, `.error` for a thrown value), the requests dispatched to
the transport in order, and the backoff delays slept between attempts in
order. -/
structure SendTrace where
  result : Except Thrown McpResponse
  dispatched : List McpRequest
  delays : List Nat
deriving Repr

/-- The retry loop of `sendMcpRequest`, one transport attempt per
iteration. `transport i` is what `makeHttpRequest` does on the attempt
with zero-based index `i`; `attemptIdx` is the current value of the TS
`attempt` counter and `n` the number of loop iterations still allowed
(`retries + 1 - attemptIdx`; the loop guard is `attempt <= retries`).
On the last allowed attempt a failure reaches the post-loop
`throw this.handleError(lastError!)`; on an earlier failure the loop
sleeps `backoffDelay (attemptIdx + 1)` and retries the same request.
The `n = 0` case is unreachable from `sendMcpRequest` (which starts with
`n = retries + 1 ≥ 1`); it models the TS crash that dereferencing the
never-assigned `lastError!` would produce. -/
def sendLoop (transport : Nat → Except Thrown McpResponse) (req : McpRequest)
    (attemptIdx : Nat) : Nat → SendTrace
  | 0 =>
      { result := .error (.raw ⟨"TypeError", "Cannot read properties of undefined"⟩),
        dispatched := [], delays := [] }
  | 1 =>
      match transport attemptIdx with
      | .ok resp => { result := .ok resp, dispatched := [req], delays := [] }
      | .error e =>
          { result := .error (.mcp (handleError e)),
            dispatched := [req], delays := [] }
  | n + 2 =>
      match transport attemptIdx with
      | .ok resp => { result := .ok resp, dispatched := [req], delays := [] }
      | .error _ =>
          let rest := sendLoop transport req (attemptIdx + 1) (n + 1)
          { result := rest.result,
            dispatched := req :: rest.dispatched,
            delays := backoffDelay (attemptIdx + 1) :: rest.delays }

/-- The short-circuit response `{ success: true, data: { enhancedPrompt:
request.prompt } }` returned when the feature flag is off. -/
def passThroughResponse (p : String) : McpResponse :=
  { success := true, data := some { enhancedPrompt := some p } }

/-- `McpService.sendMcpRequest`: when the feature flag is off, short-circuit
with `{ success: true, data: { enhancedPrompt: request.prompt } }` and no
dispatch; otherwise run the retry loop for up to `retries + 1` attempts. -/
def sendMcpRequest (cfg : ExtensionConfig)
    (transport : Nat → Except Thrown McpResponse) (req : McpRequest) :
    SendTrace :=
  if cfg.features.enabled = false then
    { result := .ok (passThroughResponse req.prompt),
      dispatched := [], delays := [] }
  else
    sendLoop transport req 0 (cfg.mcpServer.retries + 1)

/-! ### Orchestrator (`CopilotChatParticipant`) -/

/-- `ChatSession` from `types.ts` usage in the chat participant. -/
structure ChatSession where
  id : String
  userId : String
  startTime : Nat
  lastActivity : Nat
  messageCount : Nat
deriving DecidableEq, Repr

/-- What the context harvester (editor state) supplies to
`buildMcpRequest`: workspace folder, open files, active file, non-empty
selection, and version strings. -/
structure HarvestInputs where
  workspaceFolder : Option String
  openFiles : List String
  activeFile : Option ActiveFile
  selection : Option SelectionInfo
  extensionVersion : String
  vscodeVersion : String
  copilotVersion : Option String
deriving DecidableEq, Repr

/-- `CopilotChatParticipant.buildMcpRequest` (part_002 lines 114–165):
assemble the outgoing payload; the workspace block is gated by
`includeWorkspaceContext` (and a workspace folder existing), the active-file
block by `includeActiveFile` (and an active editor), the selection only
inside the active-file block when non-empty; `timestamp` is `Date.now()`
at build time, passed here as `now`. -/
def buildMcpRequest (cfg : ExtensionConfig) (prompt : String)
    (session : ChatSession) (env : HarvestInputs) (now : Nat) : McpRequest :=
  let ctx0 : McpContext := {}
  let ctx1 :=
    if cfg.features.includeWorkspaceContext ∧ env.workspaceFolder.isSome then
      { ctx0 with workspaceRoot := env.workspaceFolder,
                  openFiles := some env.openFiles }
    else ctx0
  let ctx2 :=
    match cfg.features.includeActiveFile, env.activeFile with
    | true, some af =>
        { ctx1 with activeFile := some af, selection := env.selection }
    | _, _ => ctx1
  { prompt := prompt, sessionId := session.id, userId := session.userId,
    timestamp := now, context := ctx2,
    metadata := { extensionVersion := env.extensionVersion,
                  vscodeVersion := env.vscodeVersion,
                  copilotVersion := env.copilotVersion } }

/-- The pass-through markdown emitted when the feature flag is off
(part_002 line 64). -/
def passThroughMessage (prompt : String) : String :=
  "**Original prompt:** " ++ prompt ++
    "\n\n*Note: MCP integration is currently disabled.*"

/-- `handleMcpResponse`'s error message for a `success:false` body:
`mcpResponse.error?.message || 'MCP server returned unsuccessful response'`
(JS `||` treats the empty string as falsy). -/
def unsuccessfulMessage (e : Option McpErrorBody) : String :=
  match e with
  | some eb =>
      if eb.message = "" then "MCP server returned unsuccessful response"
      else eb.message
  | Option.none => "MCP server returned unsuccessful response"

/-- The markdown lines for a suggestions block: header, one bullet per
suggestion, trailing blank line (part_002 lines 201–207). -/
def suggestionSegs (l : List String) : List String :=
  "**Suggestions:**\n" :: l.map (fun s => "• " ++ s ++ "\n") ++ ["\n"]

/-- `CopilotChatParticipant.handleMcpResponse` (part_002 lines 170–215):
a `success:false` body throws `McpError(SERVER_ERROR, ...)`; otherwise the
markdown segments are emitted in order — enhanced prompt (only when present,
truthy and different from the original), additional context (when truthy),
suggestions (when non-empty), and a debug block when the logging level is
`debug` and the response carries metadata. -/
def handleMcpResponse (resp : McpResponse) (origPrompt : String)
    (debugMode : Bool) : Except McpError (List String) :=
  if resp.success = false then
    .error { type := .SERVER_ERROR, message := unsuccessfulMessage resp.error }
  else
    match resp.data with
    | Option.none => .ok ["**Enhanced Prompt:** " ++ origPrompt]
    | some d =>
        let s1 :=
          match d.enhancedPrompt with
          | some ep =>
              if ep ≠ "" ∧ ep ≠ origPrompt then
                ["**Enhanced Prompt:** " ++ ep ++ "\n\n"]
              else []
          | Option.none => []
        let s2 :=
          match d.additionalContext with
          | some ac =>
              if ac ≠ "" then
                ["**Additional Context:**\n" ++ ac ++ "\n\n"]
              else []
          | Option.none => []
        let s3 :=
          match d.suggestions with
          | some l => if l ≠ [] then suggestionSegs l else []
          | Option.none => []
        let s4 :=
          match debugMode, d.metadata with
          | true, some m =>
              ["**Debug Info:**\n```json\n" ++ m ++ "\n```\n"]
          | _, _ => []
        .ok (s1 ++ s2 ++ s3 ++ s4)

/-- The fixed template sentence `handleMcpError` selects per error kind
(part_002 lines 230–245); the `default` arm — reached for `SERVER_ERROR`,
`INVALID_RESPONSE` and `CONFIGURATION_ERROR` — interpolates the carried
message into `Error: ...`. -/
def mcpErrorTemplate (t : McpErrorType) (msg : String) : String :=
  match t with
  | .CONNECTION_ERROR =>
      "Unable to connect to MCP server. Please check your configuration."
  | .AUTHENTICATION_ERROR =>
      "Authentication failed. Please check your API credentials."
  | .TIMEOUT_ERROR =>
      "Request timed out. The MCP server may be overloaded."
  | .RATE_LIMITED =>
      "Rate limit exceeded. Please wait before making another request."
  | _ => "Error: " ++ msg

/-- `CopilotChatParticipant.handleMcpError` (part_002 lines 220–251): the
single markdown string streamed on failure — header, per-kind template,
fallback note, then the original prompt. -/
def handleMcpErrorMessage (e : McpError) (origPrompt : String) : String :=
  "❌ **MCP Enhancement Failed**\n\n" ++ mcpErrorTemplate e.type e.message ++
    "\n\n**Fallback:** Using original prompt without enhancement.\n\n" ++
    ("**Original Prompt:** " ++ origPrompt)

/-- The failure markdown when the caught value is any thrown value
(`error as McpError` in the catch at part_002 line 102): a raw error has no
`type` property, so the `switch` falls through to the `default` arm with
the raw message. -/
def thrownErrorMessage (t : Thrown) (origPrompt : String) : String :=
  match t with
  | .mcp e => handleMcpErrorMessage e origPrompt
  | .raw e =>
      handleMcpErrorMessage { type := .SERVER_ERROR, message := e.message }
        origPrompt

/-- The session mutation after a rendered success (part_002 lines 97–99):
`session.lastActivity = Date.now(); session.messageCount++`. -/
def touchSession (s : ChatSession) (now : Nat) : ChatSession :=
  { s with lastActivity := now, messageCount := s.messageCount + 1 }

/-- Observable outcome of one `handleChatRequest` turn: markdown segments
streamed (`stream.markdown`), progress notices (`stream.progress`), the
requests actually dispatched over the network, the session state after the
turn, and whether the session record was mutated. -/
structure ChatOutcome where
  output : List String
  progress : List String
  dispatched : List McpRequest
  session : ChatSession
  sessionTouched : Bool
deriving Repr

/-- `CopilotChatParticipant.handleChatRequest` (part_002 lines 54–109).
`cancelledPre` / `cancelledPost` are the values of
`token.isCancellationRequested` at the two points where the source reads it
(line 80, before dispatch; line 90, after a successful dispatch). Session
creation (`getOrCreateSession`) is abstracted: `session` is the resolved
session record. Disabled flag: pass-through markdown only. Pre-dispatch
cancellation: no markdown. A successful dispatch followed by cancellation:
no markdown. A `success:false` body or a thrown transport error: the
fallback markdown, emitted without re-checking cancellation. Session
`lastActivity`/`messageCount` are updated only after a rendered success
(lines 97–99). -/
def handleChatRequest (cfg : ExtensionConfig) (prompt : String)
    (env : HarvestInputs) (cancelledPre cancelledPost : Bool)
    (transport : Nat → Except Thrown McpResponse)
    (session : ChatSession) (now : Nat) : ChatOutcome :=
  if cfg.features.enabled = false then
    { output := [passThroughMessage prompt], progress := [],
      dispatched := [], session := session, sessionTouched := false }
  else
    let req := buildMcpRequest cfg prompt session env now
    if cancelledPre then
      { output := [], progress := ["Enhancing prompt with MCP server..."],
        dispatched := [], session := session, sessionTouched := false }
    else
      let trace := sendMcpRequest cfg transport req
      match trace.result with
      | .ok resp =>
          if cancelledPost then
            { output := [], progress := ["Enhancing prompt with MCP server..."],
              dispatched := trace.dispatched, session := session,
              sessionTouched := false }
          else
            match handleMcpResponse resp prompt (cfg.logging.level = "debug") with
            | .ok segs =>
                { output := segs,
                  progress := ["Enhancing prompt with MCP server..."],
                  dispatched := trace.dispatched,
                  session := touchSession session now,
                  sessionTouched := true }
            | .error e =>
                { output := [handleMcpErrorMessage e prompt],
                  progress := ["Enhancing prompt with MCP server..."],
                  dispatched := trace.dispatched, session := session,
                  sessionTouched := false }
      | .error t =>
          { output := [thrownErrorMessage t prompt],
            progress := ["Enhancing prompt with MCP server..."],
            dispatched := trace.dispatched, session := session,
            sessionTouched := false }

/-! ### Shared helper notions and lemmas -/

/-- `needle` occurs verbatim inside `hay` (stated over the character
sequences of the two strings). -/
def containsText (needle hay : String) : Prop :=
  ∃ pre post, hay.data = pre ++ needle.data ++ post

theorem containsText_trans {a b c : String}
    (h1 : containsText a b) (h2 : containsText b c) : containsText a c := by
  obtain ⟨p1, s1, hb⟩ := h1
  obtain ⟨p2, s2, hc⟩ := h2
  exact ⟨p2 ++ p1, s1 ++ s2, by simp [hc, hb]⟩

theorem containsText_self (a : String) : containsText a a :=
  ⟨[], [], by simp⟩

/-- The fallback markdown contains the original prompt verbatim. -/
theorem errorMessage_contains_prompt (e : McpError) (p : String) :
    containsText p (handleMcpErrorMessage e p) := by
  refine ⟨("❌ **MCP Enhancement Failed**\n\n" ++ mcpErrorTemplate e.type e.message ++
    "\n\n**Fallback:** Using original prompt without enhancement.\n\n" ++
    "**Original Prompt:** ").data, [], ?_⟩
  simp [handleMcpErrorMessage, String.data_append]

/-- The fallback markdown contains the selected template verbatim. -/
theorem errorMessage_contains_template (e : McpError) (p : String) :
    containsText (mcpErrorTemplate e.type e.message) (handleMcpErrorMessage e p) := by
  refine ⟨"❌ **MCP Enhancement Failed**\n\n".data,
    ("\n\n**Fallback:** Using original prompt without enhancement.\n\n" ++
      ("**Original Prompt:** " ++ p)).data, ?_⟩
  simp [handleMcpErrorMessage, String.data_append]

/-- A transport that succeeds immediately makes the retry loop stop after
one dispatch. -/
theorem sendLoop_ok_first (resp : McpResponse) (req : McpRequest)
    (tr : Nat → Except Thrown McpResponse) (a n : Nat)
    (h : tr a = .ok resp) :
    sendLoop tr req a (n + 1) =
      { result := .ok resp, dispatched := [req], delays := [] } := by
  cases n <;> simp [sendLoop, h]

/-- Exact trace of the retry loop over a permanently failing transport:
one dispatch per allowed attempt, the documented backoff before each
retry, and the last error classified through `handleError`. -/
theorem sendLoop_fail_trace (err : Nat → Thrown) (req : McpRequest) :
    ∀ n a, sendLoop (fun i => .error (err i)) req a (n + 1) =
      { result := .error (.mcp (handleError (err (a + n)))),
        dispatched := List.replicate (n + 1) req,
        delays := (List.range n).map (fun i => backoffDelay (a + 1 + i)) } := by
  intro n
  induction n with
  | zero => intro a; simp [sendLoop]
  | succ m ih =>
      intro a
      show sendLoop _ req a (m + 2) = _
      simp only [sendLoop, ih (a + 1), SendTrace.mk.injEq]
      refine ⟨?_, ?_, ?_⟩
      · have h1 : a + 1 + m = a + (m + 1) := by omega
        rw [h1]
      · simp [List.replicate_succ]
      · rw [List.range_succ_eq_map, List.map_cons, List.map_map]
        refine congrArg₂ List.cons ?_ ?_
        · norm_num
        · refine congrArg (fun f => List.map f (List.range m)) ?_
          funext i
          simp only [Function.comp_apply]
          congr 1
          omega

/-- Any error the retry loop surfaces is a classified `McpError`. -/
theorem sendLoop_error_classified (tr : Nat → Except Thrown McpResponse)
    (req : McpRequest) :
    ∀ n a e, (sendLoop tr req a (n + 1)).result = .error e →
      e.isClassified = true := by
  intro n
  induction n with
  | zero =>
      intro a e h
      revert h
      show (sendLoop tr req a 1).result = _ → _
      simp only [sendLoop]
      cases htr : tr a with
      | ok resp => simp
      | error e0 =>
          intro h
          simp only [Except.error.injEq] at h
          subst h
          rfl
  | succ m ih =>
      intro a e h
      revert h
      show (sendLoop tr req a (m + 2)).result = _ → _
      simp only [sendLoop]
      cases htr : tr a with
      | ok resp => simp
      | error e0 =>
          intro h
          exact ih (a + 1) e h

/-- The retry loop dispatches the very same request object on every
attempt. -/
theorem sendLoop_dispatched_replicate (tr : Nat → Except Thrown McpResponse)
    (req : McpRequest) :
    ∀ n a, ∃ k, (sendLoop tr req a n).dispatched = List.replicate k req := by
  intro n
  induction n with
  | zero => intro a; exact ⟨0, rfl⟩
  | succ m ih =>
      intro a
      cases m with
      | zero =>
          show ∃ k, (sendLoop tr req a 1).dispatched = _
          simp only [sendLoop]
          cases htr : tr a with
          | ok resp => exact ⟨1, by simp [List.replicate_succ]⟩
          | error e0 => exact ⟨1, by simp [List.replicate_succ]⟩
      | succ m' =>
          show ∃ k, (sendLoop tr req a (m' + 2)).dispatched = _
          simp only [sendLoop]
          cases htr : tr a with
          | ok resp => exact ⟨1, by simp [List.replicate_succ]⟩
          | error e0 =>
              obtain ⟨k, hk⟩ := ih (a + 1)
              exact ⟨k + 1, by simp [hk, List.replicate_succ]⟩

/-! ### Concrete fixtures (the defaults of `configManager.ts`) -/

/-- A concrete enabled configuration with the default settings of
`configManager.ts` and a given retry count. -/
def cfgEnabled (r : Nat) : ExtensionConfig :=
  { mcpServer := ⟨"http://localhost:3000/mcp", 30000, r⟩,
    authentication := ⟨.none, "", "Authorization"⟩,
    httpClient := ⟨.fetch, "VSCode-Copilot-MCP-Bridge/1.0.0"⟩,
    features := ⟨true, true, true⟩,
    logging := ⟨"info", false⟩ }

/-- A concrete outgoing request. -/
def reqSample : McpRequest :=
  { prompt := "p", sessionId := "s", userId := "u", timestamp := 7,
    context := {}, metadata := ⟨"1.0.0", "1.85.0", Option.none⟩ }

/-- A concrete harvester snapshot. -/
def envSample : HarvestInputs :=
  ⟨Option.none, [], Option.none, Option.none, "1.0.0", "1.85.0", Option.none⟩

/-- A concrete chat session. -/
def sessSample : ChatSession := ⟨"session-1", "user-x", 0, 0, 0⟩

/-- A transport whose every attempt rejects with a raw error. -/
def failingTransport : Nat → Except Thrown McpResponse :=
  fun _ => .error (.raw ⟨"Error", "boom"⟩)

/-! ### Claim theorems -/

/-- C1. Every failure `sendMcpRequest` lets escape is classified: whatever
the transport does on each attempt, if the call's result is a thrown value
then that value is an `McpError` (one of the `ErrorKind` values), never a
raw transport exception. -/
theorem sendMcpRequest_errors_classified (cfg : ExtensionConfig)
    (transport : Nat → Except Thrown McpResponse) (req : McpRequest)
    (e : Thrown)
    (h : (sendMcpRequest cfg transport req).result = .error e) :
    e.isClassified = true := by
  revert h
  unfold sendMcpRequest
  by_cases hen : cfg.features.enabled = false
  · simp [hen]
  · simp only [hen, if_false]
    exact sendLoop_error_classified transport req cfg.mcpServer.retries 0 e

/-- C1 witness: the theorem applied to a concrete permanently failing
transport at retries = 0. -/
theorem sendMcpRequest_errors_classified_witness :
    (Thrown.mcp ⟨.SERVER_ERROR, "boom", Option.none⟩).isClassified = true :=
  sendMcpRequest_errors_classified (cfgEnabled 0) failingTransport reqSample
    (Thrown.mcp ⟨.SERVER_ERROR, "boom", Option.none⟩) (by rfl)

/-- C4 counterexample: with `retries = 1` and a permanently failing
transport, the delay slept before attempt `k = 2` is `1000` ms, not the
claimed `min(1000 · 2^(k-1), 10000) = 2000` ms. -/
theorem backoff_first_delay_is_1000 :
    (sendMcpRequest (cfgEnabled 1) failingTransport reqSample).delays = [1000] ∧
    (1000 : Nat) ≠ min (1000 * 2 ^ (2 - 1)) 10000 := by
  constructor
  · rfl
  · decide

/-- C4 (amended): with `retries = r` and a permanently failing transport,
`sendMcpRequest` makes exactly `r + 1` strictly sequential dispatch
attempts of the same request; the delay before attempt `k` (for `k ≥ 2`) is
entry `k - 2` of the delay list, namely `min(1000 · 2^(k-2), 10000)` ms;
and the result is the last error, classified through `handleError`. -/
theorem retry_trace_exact (ms : McpServerConfig) (auth : AuthenticationConfig)
    (hc : HttpClientConfig) (iwc iaf : Bool) (lg : LoggingConfig)
    (err : Nat → Thrown) (req : McpRequest) :
    (sendMcpRequest ⟨ms, auth, hc, ⟨true, iwc, iaf⟩, lg⟩
        (fun i => .error (err i)) req).dispatched.length = ms.retries + 1 ∧
    (sendMcpRequest ⟨ms, auth, hc, ⟨true, iwc, iaf⟩, lg⟩
        (fun i => .error (err i)) req).dispatched
      = List.replicate (ms.retries + 1) req ∧
    (sendMcpRequest ⟨ms, auth, hc, ⟨true, iwc, iaf⟩, lg⟩
        (fun i => .error (err i)) req).delays
      = (List.range ms.retries).map (fun k => min (1000 * 2 ^ k) 10000) ∧
    (sendMcpRequest ⟨ms, auth, hc, ⟨true, iwc, iaf⟩, lg⟩
        (fun i => .error (err i)) req).result
      = .error (.mcp (handleError (err ms.retries))) := by
  have hloop := sendLoop_fail_trace err req ms.retries 0
  have hsend : sendMcpRequest ⟨ms, auth, hc, ⟨true, iwc, iaf⟩, lg⟩
      (fun i => .error (err i)) req
      = sendLoop (fun i => .error (err i)) req 0 (ms.retries + 1) := by
    simp [sendMcpRequest]
  rw [hsend, hloop]
  refine ⟨by simp, by simp, ?_, by simp⟩
  simp only []
  refine congrArg (List.map · (List.range ms.retries)) ?_
  funext k
  show backoffDelay (0 + 1 + k) = min (1000 * 2 ^ k) 10000
  unfold backoffDelay
  have h : 0 + 1 + k - 1 = k := by omega
  rw [h]

/-- C9. The timestamp of an outgoing request is fixed when the payload is
built (`buildMcpRequest` stamps the `now` it is given), and every retry
dispatches the very same request object, so the timestamp is identical
across all attempts of one logical request. -/
theorem timestamp_stable_across_retries (cfg : ExtensionConfig)
    (prompt : String) (sess : ChatSession) (env : HarvestInputs) (now : Nat)
    (transport : Nat → Except Thrown McpResponse) :
    (buildMcpRequest cfg prompt sess env now).timestamp = now ∧
    ∃ k, (sendMcpRequest cfg transport
            (buildMcpRequest cfg prompt sess env now)).dispatched
          = List.replicate k (buildMcpRequest cfg prompt sess env now) := by
  constructor
  · rfl
  · unfold sendMcpRequest
    by_cases hen : cfg.features.enabled = false
    · exact ⟨0, by simp [hen]⟩
    · simp only [hen, if_false]
      exact sendLoop_dispatched_replicate transport _ (cfg.mcpServer.retries + 1) 0

/-- C2 counterexample: under the fetch transport an HTTP 429 response is
classified `SERVER_ERROR`, not `RATE_LIMITED`, so the claimed behaviour
does not hold identically under both transports. -/
theorem fetch_429_not_rate_limited :
    makeFetchRequest (.response 429 "Too Many Requests"
        (.ok ⟨true, Option.none, Option.none⟩))
      = .error (.mcp ⟨.SERVER_ERROR, "HTTP 429: Too Many Requests", Option.none⟩) ∧
    McpErrorType.SERVER_ERROR ≠ McpErrorType.RATE_LIMITED :=
  ⟨rfl, by decide⟩

/-- C2 (amended): an HTTP 429 is classified `RATE_LIMITED` regardless of
response body content under the axios transport (whenever the axios error
is a response error, i.e. carries none of the connection/timeout codes);
under the fetch transport the same status is classified `SERVER_ERROR`
like every other non-2xx, so the two transports do not behave identically
here. -/
theorem http429_classification (e : AxiosError) (st : String)
    (body : Except JsError McpResponse)
    (h1 : e.code ≠ some "ECONNREFUSED") (h2 : e.code ≠ some "ENOTFOUND")
    (h3 : e.code ≠ some "ECONNABORTED") (h4 : e.status = some 429) :
    (handleAxiosError e).type = .RATE_LIMITED ∧
    makeAxiosRequest (.axiosErr e) = .error (.mcp (handleAxiosError e)) ∧
    makeFetchRequest (.response 429 st body)
      = .error (.mcp ⟨.SERVER_ERROR, "HTTP 429: " ++ st, Option.none⟩) :=
  ⟨by simp [handleAxiosError, h1, h2, h3, h4], rfl, rfl⟩

/-- C2 witness: the amended theorem at a concrete axios 429 error and a
concrete fetch 429 response. -/
theorem http429_classification_witness :
    (handleAxiosError ⟨some "ERR_BAD_REQUEST", some 429,
        "Request failed with status code 429"⟩).type = .RATE_LIMITED ∧
    makeAxiosRequest (.axiosErr ⟨some "ERR_BAD_REQUEST", some 429,
        "Request failed with status code 429"⟩)
      = .error (.mcp (handleAxiosError ⟨some "ERR_BAD_REQUEST", some 429,
          "Request failed with status code 429"⟩)) ∧
    makeFetchRequest (.response 429 "Too Many Requests"
        (.ok ⟨true, Option.none, Option.none⟩))
      = .error (.mcp ⟨.SERVER_ERROR, "HTTP 429: " ++ "Too Many Requests",
          Option.none⟩) :=
  http429_classification ⟨some "ERR_BAD_REQUEST", some 429,
      "Request failed with status code 429"⟩ "Too Many Requests"
    (.ok ⟨true, Option.none, Option.none⟩)
    (by decide) (by decide) (by decide) rfl

/-- A transport whose in-flight fetch is aborted by an external
cancellation. -/
def abortingTransport : Nat → Except Thrown McpResponse :=
  fun _ => fetchResultOnAbort .externalCancel

/-- C3 counterexample: an abort whose cause is an external cancellation
(not the configured timeout) is still classified `TIMEOUT_ERROR`, and the
turn still emits the fallback message instead of suppressing output (the
post-dispatch cancellation check is skipped on the error path). -/
theorem external_abort_counterexample :
    fetchResultOnAbort .externalCancel
      = .error (.mcp ⟨.TIMEOUT_ERROR, "Request timed out", Option.none⟩) ∧
    AbortCause.externalCancel ≠ AbortCause.timeoutFired ∧
    (handleChatRequest (cfgEnabled 0) "ORIG" envSample false true
        abortingTransport sessSample 5).output
      = [handleMcpErrorMessage ⟨.TIMEOUT_ERROR, "Request timed out", Option.none⟩
          "ORIG"] ∧
    (handleChatRequest (cfgEnabled 0) "ORIG" envSample false true
        abortingTransport sessSample 5).output ≠ [] :=
  ⟨rfl, by decide, rfl, by decide⟩

/-- C3 (amended): an aborted fetch attempt is classified `TIMEOUT_ERROR`
whatever the cause of the abort (the classifier sees only the delivered
`AbortError`); an external cancellation suppresses output when observed at
the pre-dispatch check or after a successful dispatch, but not on the
failure path. -/
theorem abort_and_cancellation (cause : AbortCause) (ms : McpServerConfig)
    (auth : AuthenticationConfig) (hc : HttpClientConfig) (iwc iaf : Bool)
    (lg : LoggingConfig) (prompt : String) (env : HarvestInputs) (b : Bool)
    (transport : Nat → Except Thrown McpResponse) (resp : McpResponse)
    (sess : ChatSession) (now : Nat) :
    fetchResultOnAbort cause
      = .error (.mcp ⟨.TIMEOUT_ERROR, "Request timed out", Option.none⟩) ∧
    (handleChatRequest ⟨ms, auth, hc, ⟨true, iwc, iaf⟩, lg⟩ prompt env true b
        transport sess now).output = [] ∧
    (handleChatRequest ⟨ms, auth, hc, ⟨true, iwc, iaf⟩, lg⟩ prompt env false true
        (fun _ => .ok resp) sess now).output = [] := by
  refine ⟨by cases cause <;> rfl, rfl, ?_⟩
  have h := sendLoop_ok_first resp
    (buildMcpRequest ⟨ms, auth, hc, ⟨true, iwc, iaf⟩, lg⟩ prompt sess env now)
    (fun _ => .ok resp) 0 ms.retries rfl
  simp [handleChatRequest, sendMcpRequest, h]

/-- C5. With the feature flag off, the orchestrator emits exactly the
single pass-through segment built from the original prompt (which contains
the prompt verbatim), dispatches nothing, and touches no session; at the
transport layer `sendMcpRequest` short-circuits to a success whose
`enhancedPrompt` is the request's prompt unchanged, with no dispatch. -/
theorem disabled_pass_through (ms : McpServerConfig)
    (auth : AuthenticationConfig) (hc : HttpClientConfig) (iwc iaf : Bool)
    (lg : LoggingConfig) (prompt : String) (env : HarvestInputs)
    (c1 c2 : Bool) (transport : Nat → Except Thrown McpResponse)
    (sess : ChatSession) (now : Nat) (req : McpRequest) :
    (handleChatRequest ⟨ms, auth, hc, ⟨false, iwc, iaf⟩, lg⟩ prompt env c1 c2
        transport sess now).output = [passThroughMessage prompt] ∧
    (handleChatRequest ⟨ms, auth, hc, ⟨false, iwc, iaf⟩, lg⟩ prompt env c1 c2
        transport sess now).dispatched = [] ∧
    (handleChatRequest ⟨ms, auth, hc, ⟨false, iwc, iaf⟩, lg⟩ prompt env c1 c2
        transport sess now).sessionTouched = false ∧
    (handleChatRequest ⟨ms, auth, hc, ⟨false, iwc, iaf⟩, lg⟩ prompt env c1 c2
        transport sess now).session = sess ∧
    containsText prompt (passThroughMessage prompt) ∧
    (sendMcpRequest ⟨ms, auth, hc, ⟨false, iwc, iaf⟩, lg⟩ transport req).result
      = .ok (passThroughResponse req.prompt) ∧
    (sendMcpRequest ⟨ms, auth, hc, ⟨false, iwc, iaf⟩, lg⟩ transport req).dispatched
      = [] := by
  refine ⟨rfl, rfl, rfl, rfl, ?_, rfl, rfl⟩
  refine ⟨"**Original prompt:** ".data,
    "\n\n*Note: MCP integration is currently disabled.*".data, ?_⟩
  simp [passThroughMessage, String.data_append]

/-- C6. For every `ErrorKind` and message, the fallback markdown contains
that kind's mapped template text and the original prompt verbatim; and a
transport failure never aborts the turn — the orchestrator always emits the
fallback segment. -/
theorem fallback_completeness (t : McpErrorType) (msg prompt : String)
    (ms : McpServerConfig) (auth : AuthenticationConfig)
    (hc : HttpClientConfig) (iwc iaf : Bool) (lg : LoggingConfig)
    (env : HarvestInputs) (b : Bool) (th : Thrown) (sess : ChatSession)
    (now : Nat) :
    containsText (mcpErrorTemplate t msg)
      (handleMcpErrorMessage ⟨t, msg, Option.none⟩ prompt) ∧
    containsText prompt (handleMcpErrorMessage ⟨t, msg, Option.none⟩ prompt) ∧
    (handleChatRequest ⟨ms, auth, hc, ⟨true, iwc, iaf⟩, lg⟩ prompt env false b
        (fun _ => .error th) sess now).output
      = [handleMcpErrorMessage (handleError th) prompt] := by
  refine ⟨errorMessage_contains_template ⟨t, msg, Option.none⟩ prompt,
    errorMessage_contains_prompt ⟨t, msg, Option.none⟩ prompt, ?_⟩
  have h := sendLoop_fail_trace (fun _ => th)
    (buildMcpRequest ⟨ms, auth, hc, ⟨true, iwc, iaf⟩, lg⟩ prompt sess env now)
    ms.retries 0
  simp [handleChatRequest, sendMcpRequest, h, thrownErrorMessage]

/-- The HTTP-200 failure body of the C7 scenario:
`{success:false, error:{code:"X", message:"bad"}}`. -/
def resp7 : McpResponse := ⟨false, Option.none, some ⟨"X", "bad"⟩⟩

/-- C7. An HTTP 200 response whose body is
`{success:false, error:{code:"X", message:"bad"}}` is classified as a
failure outcome carrying message `"bad"`, and the user-facing failure path
renders it together with the original prompt. -/
theorem success_false_is_failure_outcome :
    handleMcpResponse resp7 "the original prompt" false
      = .error ⟨.SERVER_ERROR, "bad", Option.none⟩ ∧
    (handleChatRequest (cfgEnabled 0) "the original prompt" envSample false
        false (fun _ => .ok resp7) sessSample 5).output
      = [handleMcpErrorMessage ⟨.SERVER_ERROR, "bad", Option.none⟩
          "the original prompt"] ∧
    containsText "bad"
      (handleMcpErrorMessage ⟨.SERVER_ERROR, "bad", Option.none⟩
        "the original prompt") ∧
    containsText "the original prompt"
      (handleMcpErrorMessage ⟨.SERVER_ERROR, "bad", Option.none⟩
        "the original prompt") := by
  refine ⟨rfl, rfl, ?_, errorMessage_contains_prompt _ _⟩
  refine containsText_trans ⟨"Error: ".data, [], ?_⟩
    (errorMessage_contains_template ⟨.SERVER_ERROR, "bad", Option.none⟩
      "the original prompt")
  simp [mcpErrorTemplate, String.data_append]

/-- A configuration differing from the defaults only in its
authentication block. -/
def authCfg (t : AuthType) (tok : String) : ExtensionConfig :=
  { cfgEnabled 0 with authentication := ⟨t, tok, "Authorization"⟩ }

/-- C8. The authentication header table: `bearer`/`"abc"` gives exactly
`Bearer abc`; `api-key`/`"k1"` gives exactly `k1`; `basic`/`"u:p"` gives
`Basic ` + base64 of `u:p` (= `Basic dTpw`); `none` installs no
`Authorization` key at all, leaving exactly the four fixed headers. -/
theorem auth_header_table :
    recordGet (buildHeaders (authCfg .bearer "abc") "1.85.0" "1.0.0")
        "Authorization" = some "Bearer abc" ∧
    recordGet (buildHeaders (authCfg .apiKey "k1") "1.85.0" "1.0.0")
        "Authorization" = some "k1" ∧
    recordGet (buildHeaders (authCfg .basic "u:p") "1.85.0" "1.0.0")
        "Authorization" = some ("Basic " ++ base64Encode "u:p") ∧
    base64Encode "u:p" = "dTpw" ∧
    recordGet (buildHeaders (authCfg .none "tok") "1.85.0" "1.0.0")
        "Authorization" = Option.none ∧
    buildHeaders (authCfg .none "tok") "1.85.0" "1.0.0"
      = fixedHeaders "VSCode-Copilot-MCP-Bridge/1.0.0" "1.85.0" "1.0.0" :=
  ⟨rfl, rfl, rfl, rfl, rfl, rfl⟩

/-- C10. With a non-empty authentication type but an empty token,
`buildHeaders` adds no authentication header at all: the built record is
exactly the four fixed headers, and the configured header name (when it is
not one of the fixed names) is absent. -/
theorem empty_token_no_auth_header (t : AuthType) (hn ua vv ev ep : String)
    (tmo r : Nat) (lib : HttpLibrary) (feat : FeatureConfig)
    (lg : LoggingConfig)
    (h1 : hn ≠ "Content-Type") (h2 : hn ≠ "User-Agent")
    (h3 : hn ≠ "X-VS-Code-Version") (h4 : hn ≠ "X-Extension-Version") :
    buildHeaders ⟨⟨ep, tmo, r⟩, ⟨t, "", hn⟩, ⟨lib, ua⟩, feat, lg⟩ vv ev
      = fixedHeaders ua vv ev ∧
    recordGet (buildHeaders ⟨⟨ep, tmo, r⟩, ⟨t, "", hn⟩, ⟨lib, ua⟩, feat, lg⟩
        vv ev) hn = Option.none := by
  have hb : buildHeaders ⟨⟨ep, tmo, r⟩, ⟨t, "", hn⟩, ⟨lib, ua⟩, feat, lg⟩ vv ev
      = fixedHeaders ua vv ev := by
    simp [buildHeaders]
  refine ⟨hb, ?_⟩
  rw [hb]
  simp [recordGet, fixedHeaders, List.find?,
    Ne.symm h1, Ne.symm h2, Ne.symm h3, Ne.symm h4]

/-- C10 witness: the theorem at a bearer configuration with an empty token
and header name `Authorization`. -/
theorem empty_token_no_auth_header_witness :
    buildHeaders ⟨⟨"http://localhost:3000/mcp", 30000, 2⟩,
        ⟨.bearer, "", "Authorization"⟩, ⟨.fetch, "UA"⟩, ⟨true, true, true⟩,
        ⟨"info", false⟩⟩ "1.85.0" "1.0.0"
      = fixedHeaders "UA" "1.85.0" "1.0.0" ∧
    recordGet (buildHeaders ⟨⟨"http://localhost:3000/mcp", 30000, 2⟩,
        ⟨.bearer, "", "Authorization"⟩, ⟨.fetch, "UA"⟩, ⟨true, true, true⟩,
        ⟨"info", false⟩⟩ "1.85.0" "1.0.0") "Authorization" = Option.none :=
  empty_token_no_auth_header .bearer "Authorization" "UA" "1.85.0" "1.0.0"
    "http://localhost:3000/mcp" 30000 2 .fetch ⟨true, true, true⟩
    ⟨"info", false⟩ (by decide) (by decide) (by decide) (by decide)

end McpBridge
